import Mathlib

/-!
Verification of the James-Bot retrieval-and-response engine.

This file is a shallow embedding of the core of the repository's Python
sources, chiefly `src/app_minimal.py` (the deployed variant: lexical
matcher, intent pre-filter, response composer, conversation ledger,
session ids) and `src/app.py` (the semantic retriever: cosine similarity
over embeddings).  Machine-level concerns (timestamps, the HTTP layer,
analytics counters, file I/O mechanics) are abstracted: fallible
capabilities (the completion call, the ledger write) are passed in as
`Except`-valued parameters, durable storage as an explicit map, and the
per-request state is threaded functionally.
-/

/-! ### String helpers mirroring Python's str methods -/

/-- Python's `str.lower()` restricted to the ASCII case mapping. -/
def strLower (s : String) : String := String.mk (s.toList.map Char.toLower)

/-- Accumulator pass behind `pySplit`: collect maximal non-whitespace runs. -/
def wordsAux : List Char → List Char → List String
  | [], acc => if acc.isEmpty then [] else [String.mk acc.reverse]
  | c :: rest, acc =>
      if c.isWhitespace then
        if acc.isEmpty then wordsAux rest []
        else String.mk acc.reverse :: wordsAux rest []
      else wordsAux rest (c :: acc)

/-- Python's argument-free `str.split()`: split on whitespace runs, dropping
empty fragments. -/
def pySplit (s : String) : List String := wordsAux s.toList []

/-- Drop leading whitespace characters. -/
def dropLeadingWS : List Char → List Char
  | [] => []
  | c :: rest => if c.isWhitespace then dropLeadingWS rest else c :: rest

/-- Python's argument-free `str.strip()`: drop whitespace at both ends. -/
def pyStrip (s : String) : String :=
  String.mk ((dropLeadingWS (dropLeadingWS s.toList).reverse).reverse)

/-- Bool test that `pat` occurs as a contiguous sublist of `l` (Python's
`pat in s` on strings, viewed on the character lists). -/
def containsSub (pat : List Char) : List Char → Bool
  | [] => pat.isEmpty
  | c :: rest => pat.isPrefixOf (c :: rest) || containsSub pat rest

/-- Python's substring test `pat in s`. -/
def strContains (s pat : String) : Bool := containsSub pat.toList s.toList

/-- Python's `any(pattern in message for pattern in patterns)`. -/
def containsAny (message : String) (patterns : List String) : Bool :=
  patterns.any (fun p => strContains message p)

/-- The chat endpoint's message normalisation `payload.message.lower().strip()`. -/
def normalizeMsg (s : String) : String := pyStrip (strLower s)

/-! ### Knowledge entries and the fixed intent patterns / canned replies
(`src/app_minimal.py`, `chat_endpoint`) -/

/-- One question/answer knowledge entry (`qa_pairs` element). -/
structure QA where
  question : String
  answer : String
deriving DecidableEq, Repr

def greeting_patterns : List String :=
  ["hello", "hi", "hey", "good morning", "good afternoon", "good evening", "greetings", "howdy"]

def thanks_patterns : List String :=
  ["thank you", "thanks", "appreciate it", "thx", "ty"]

def goodbye_patterns : List String :=
  ["bye", "goodbye", "see you", "farewell", "take care", "later", "ttyl"]

def help_patterns : List String :=
  ["help", "what can you do", "what do you know", "how does this work"]

def who_patterns : List String :=
  ["who are you", "what are you", "tell me about yourself", "introduce yourself"]

def unavailable_reply : String :=
  "AI assistant is currently unavailable. Please contact James directly at jamesbellworkrelated@gmail.com"

def greeting_response : String :=
  "Hello! I'm James Bell's AI assistant, designed to answer questions about his professional background and experience. I only provide information that's been verified and documented in my knowledge base - no fabrications or assumptions.\n\nI can tell you about James's current role as a Concierge Security Engineer 3 & Team Lead at Arctic Wolf, his technical skills, leadership experience, customer success approach, and AI career goals.\n\nWhat would you like to know about James's background?"

def thanks_response : String :=
  "You're welcome! Feel free to ask me anything else about James's experience, or you can contact him directly at jamesbellworkrelated@gmail.com or connect on LinkedIn at https://www.linkedin.com/in/james-bell-tam"

def goodbye_response : String :=
  "Thanks for chatting! If you'd like to continue the conversation with James directly, you can reach him at jamesbellworkrelated@gmail.com or schedule a call at https://calendly.com/jamesbellworkrelated. Have a great day!"

def help_response : String :=
  "I'm here to answer questions about James Bell's professional background! I can tell you about:\n\n• His current role as Concierge Security Engineer 3 & Team Lead at Arctic Wolf\n• His technical skills in security, cloud platforms, and automation\n• His leadership experience and customer success approach\n• His AI projects and career goals\n• His work philosophy and personal interests\n\nI only share verified information from my knowledge base - no made-up details. What specific aspect of James's background interests you most?"

def intro_response : String :=
  "I'm James Bell's AI assistant! I was actually built by James himself as a demonstration of his AI development skills. \n\nI'm designed to answer questions about James's professional background using only verified information from a curated knowledge base. I can tell you about his role at Arctic Wolf, his technical expertise, leadership experience, and career goals.\n\nThis AI assistant showcases James's hands-on experience with GPT-5.1, FastAPI, retrieval-augmented generation, and responsible AI practices.\n\nWhat would you like to know about James?"

def fallback_response : String :=
  "I don't have specific information about that. Please contact James directly at jamesbellworkrelated@gmail.com or connect on LinkedIn at https://www.linkedin.com/in/james-bell-tam"

def error_response : String :=
  "I'm experiencing technical difficulties. Please contact James directly at jamesbellworkrelated@gmail.com"

/-! ### The lexical matcher loop (`chat_endpoint`, lines 417-429) -/

/-- Word-overlap score of one entry:
`len(set(qa["question"].lower().split()) & set(message_words))`. -/
def overlapScore (messageWords : List String) (qa : QA) : Nat :=
  ((pySplit (strLower qa.question)).toFinset ∩ messageWords.toFinset).card

/-- The matching loop: iterate the entries carrying `(best_match, best_score)`,
replacing the accumulator only on a strictly greater overlap. -/
def findBestMatch (messageWords : List String) :
    List QA → Option QA × Nat → Option QA × Nat
  | [], acc => acc
  | qa :: rest, acc =>
      let overlap := overlapScore messageWords qa
      if acc.2 < overlap then findBestMatch messageWords rest (some qa, overlap)
      else findBestMatch messageWords rest acc

/-- Greatest overlap score over a list of entries (0 for the empty list). -/
def maxOverlap (messageWords : List String) (l : List QA) : Nat :=
  (l.map (overlapScore messageWords)).foldr max 0

/-! ### The conversation ledger (`log_conversation`, lines 41-68) -/

/-- One logged turn.  The wall-clock `timestamp` field of the Python dict is
environment input and is not modelled; the remaining fields are. -/
structure ConversationTurn where
  turn_number : Nat
  user_message : String
  bot_response : String
  message_length : Nat
  response_length : Nat
deriving DecidableEq, Repr

/-- One session record of the `conversations` dict (`start_time` and
`last_activity` timestamps not modelled). -/
structure ConversationSession where
  session_id : String
  ip_address : String
  user_agent : String
  conversation_turns : List ConversationTurn
  total_messages : Nat
deriving DecidableEq, Repr

/-- The in-memory `conversations` dict: session_id keyed. -/
def ConvMap : Type := String → Option ConversationSession

def emptyConvs : ConvMap := fun _ => none

/-- The turn record built by `log_conversation`. -/
def mkTurn (n : Nat) (user_message bot_response : String) : ConversationTurn :=
  { turn_number := n
    user_message := user_message
    bot_response := bot_response
    message_length := user_message.length
    response_length := bot_response.length }

/-- `log_conversation(session_id, user_message, bot_response, request)`:
create the session lazily, append one turn numbered `len(turns) + 1`,
bump `total_messages`.  (The mirrored file write swallows its own
errors and does not affect the in-memory state.) -/
def log_conversation (convs : ConvMap)
    (session_id user_message bot_response ip user_agent : String) : ConvMap :=
  let sess : ConversationSession :=
    match convs session_id with
    | some s => s
    | none =>
        { session_id := session_id
          ip_address := ip
          user_agent := user_agent
          conversation_turns := []
          total_messages := 0 }
  let turn := mkTurn (sess.conversation_turns.length + 1) user_message bot_response
  fun k =>
    if k = session_id then
      some { sess with
              conversation_turns := sess.conversation_turns ++ [turn]
              total_messages := sess.total_messages + 1 }
    else convs k

/-- The turns currently stored for a session (empty when the session is absent). -/
def turnsOf (convs : ConvMap) (session_id : String) : List ConversationTurn :=
  match convs session_id with
  | none => []
  | some s => s.conversation_turns

/-- Number of turns stored for a session. -/
def turnsCount (convs : ConvMap) (session_id : String) : Nat :=
  (turnsOf convs session_id).length

/-- N successive `log_conversation` calls for one session. -/
def recordAll (convs : ConvMap) (session_id ip user_agent : String)
    (msgs : List (String × String)) : ConvMap :=
  msgs.foldl (fun c p => log_conversation c session_id p.1 p.2 ip user_agent) convs

/-- The turns a run of `recordAll` appends when the session already holds
`k` turns: numbered `k+1`, `k+2`, ... in order. -/
def buildTurns (k : Nat) : List (String × String) → List ConversationTurn
  | [] => []
  | p :: rest => mkTurn (k + 1) p.1 p.2 :: buildTurns (k + 1) rest

/-! ### Deleting a conversation (`delete_conversation`, lines 246-262) -/

/-- A JSON reply of the inspection endpoints: a `message` or an `error` body. -/
inductive ApiReply where
  | message (s : String)
  | error (s : String)
deriving DecidableEq, Repr

/-- `delete_conversation(session_id)`.  `files` is the durable per-session
storage viewed as existence of `conversation_logs/session_{sid}.json`;
`removeResult` is the outcome of `os.remove` (`none` = success,
`some e` = the raised error's text).  Returns the two stores and the reply. -/
def delete_conversation (convs : ConvMap) (files : String → Bool)
    (removeResult : Option String) (session_id : String) :
    ConvMap × (String → Bool) × ApiReply :=
  let convs2 : ConvMap := fun k => if k = session_id then none else convs k
  if files session_id then
    match removeResult with
    | none =>
        (convs2, fun k => if k = session_id then false else files k,
          ApiReply.message ("Conversation " ++ session_id ++ " deleted successfully"))
    | some e =>
        (convs2, files, ApiReply.error ("Failed to delete conversation file: " ++ e))
  else
    (convs2, files, ApiReply.message "Conversation not found or already deleted")

/-! ### The chat endpoint (`chat_endpoint`, lines 330-479) -/

/-- The ledger-write capability as the endpoint sees it: a write that may
raise.  The deployed `log_conversation` never raises (its file write
swallows its own errors); `okLogger` below is that instance. -/
def LogFn : Type :=
  ConvMap → String → String → String → Except String ConvMap

/-- The deployed logger: a plain `log_conversation` call that always succeeds. -/
def okLogger (ip user_agent : String) : LogFn :=
  fun convs sid um br => Except.ok (log_conversation convs sid um br ip user_agent)

/-- A logger whose write always raises (for exercising the failure discipline). -/
def failLogger (e : String) : LogFn :=
  fun _ _ _ _ => Except.error e

/-- Successful outcome of the endpoint body: the reply, the ledger state, and
whether the lexical retrieval loop was reached. -/
structure ChatOut where
  reply : String
  convs : ConvMap
  retrieval_invoked : Bool

/-- Log the turn and return the reply; a raising ledger write propagates as an
exception carrying the state at the raise point. -/
def finishTurn (logFn : LogFn) (convs : ConvMap) (sid um br : String)
    (retr : Bool) : Except (String × ConvMap × Bool) ChatOut :=
  match logFn convs sid um br with
  | Except.ok convs2 => Except.ok ⟨br, convs2, retr⟩
  | Except.error e => Except.error (e, convs, retr)

/-- The body of the `try:` block of `chat_endpoint`: unavailability check,
intent pre-filter (greeting, thanks, goodbye, help, identity in that order),
lexical matching, completion call, fallback.  `complete` is the completion
capability applied to the assembled system content and the raw user message;
an `Except.error` models the call raising. -/
def chatBody (clientConfigured : Bool) (qaPairs : List QA) (system_prompt : String)
    (complete : String → String → Except String String) (logFn : LogFn)
    (convs : ConvMap) (sessionId rawMessage : String) :
    Except (String × ConvMap × Bool) ChatOut :=
  match clientConfigured with
  | false => Except.ok ⟨unavailable_reply, convs, false⟩
  | true =>
    let message := normalizeMsg rawMessage
    if containsAny message greeting_patterns then
      finishTurn logFn convs sessionId rawMessage greeting_response false
    else if containsAny message thanks_patterns then
      finishTurn logFn convs sessionId rawMessage thanks_response false
    else if containsAny message goodbye_patterns then
      finishTurn logFn convs sessionId rawMessage goodbye_response false
    else if containsAny message help_patterns then
      finishTurn logFn convs sessionId rawMessage help_response false
    else if containsAny message who_patterns then
      finishTurn logFn convs sessionId rawMessage intro_response false
    else
      match findBestMatch (pySplit message) qaPairs (none, 0) with
      | (some qa, best_score) =>
          if 0 < best_score then
            let context := "Based on this Q&A: Q: " ++ qa.question ++ " A: " ++ qa.answer
            match complete (system_prompt ++ "\n\n" ++ context) rawMessage with
            | Except.ok content => finishTurn logFn convs sessionId rawMessage (pyStrip content) true
            | Except.error e => Except.error (e, convs, true)
          else finishTurn logFn convs sessionId rawMessage fallback_response true
      | (none, _) => finishTurn logFn convs sessionId rawMessage fallback_response true

/-- Result of one `/chat` request: the reply, the ledger state, the server-side
error log entries, and whether retrieval ran. -/
structure ChatResult where
  reply : String
  convs : ConvMap
  server_log : List String
  retrieval_invoked : Bool

/-- `chat_endpoint`: run the body; on an exception print the error server-side,
attempt to log the error reply swallowing any secondary logging failure, and
return the fixed technical-difficulties reply. -/
def chat_endpoint (clientConfigured : Bool) (qaPairs : List QA) (system_prompt : String)
    (complete : String → String → Except String String) (logFn : LogFn)
    (convs : ConvMap) (sessionId rawMessage : String) : ChatResult :=
  match chatBody clientConfigured qaPairs system_prompt complete logFn convs sessionId rawMessage with
  | Except.ok o => ⟨o.reply, o.convs, [], o.retrieval_invoked⟩
  | Except.error (e, convsE, retr) =>
      let convs2 :=
        match logFn convsE sessionId rawMessage error_response with
        | Except.ok c => c
        | Except.error _ => convsE
      ⟨error_response, convs2, ["Chat error: " ++ e], retr⟩

/-! ### Session identity (`get_session_id`, lines 33-39): MD5, truncated -/

/-- The 64 MD5 round constants (floor(abs(sin(i+1)) * 2^32)). -/
def md5K : List Nat := [3614090360, 3905402710, 606105819, 3250441966, 4118548399, 1200080426, 2821735955, 4249261313, 1770035416, 2336552879, 4294925233, 2304563134, 1804603682, 4254626195, 2792965006, 1236535329, 4129170786, 3225465664, 643717713, 3921069994, 3593408605, 38016083, 3634488961, 3889429448, 568446438, 3275163606, 4107603335, 1163531501, 2850285829, 4243563512, 1735328473, 2368359562, 4294588738, 2272392833, 1839030562, 4259657740, 2763975236, 1272893353, 4139469664, 3200236656, 681279174, 3936430074, 3572445317, 76029189, 3654602809, 3873151461, 530742520, 3299628645, 4096336452, 1126891415, 2878612391, 4237533241, 1700485571, 2399980690, 4293915773, 2240044497, 1873313359, 4264355552, 2734768916, 1309151649, 4149444226, 3174756917, 718787259, 3951481745]

/-- The 64 MD5 per-round left-rotation amounts. -/
def md5S : List Nat := [7, 12, 17, 22, 7, 12, 17, 22, 7, 12, 17, 22, 7, 12, 17, 22, 5, 9, 14, 20, 5, 9, 14, 20, 5, 9, 14, 20, 5, 9, 14, 20, 4, 11, 16, 23, 4, 11, 16, 23, 4, 11, 16, 23, 4, 11, 16, 23, 6, 10, 15, 21, 6, 10, 15, 21, 6, 10, 15, 21, 6, 10, 15, 21]

/-- 32-bit left rotation. -/
def rotl32 (x n : Nat) : Nat := ((x <<< n) ||| (x >>> (32 - n))) % 4294967296

/-- Little-endian 32-bit words from a byte list. -/
def toWordsLE : List Nat → List Nat
  | b0 :: b1 :: b2 :: b3 :: rest =>
      (b0 ||| (b1 <<< 8) ||| (b2 <<< 16) ||| (b3 <<< 24)) :: toWordsLE rest
  | _ => []

/-- The 8 little-endian length bytes of the MD5 padding. -/
def lenBytesLE (n : Nat) : List Nat := (List.range 8).map (fun i => (n >>> (8 * i)) % 256)

/-- MD5 padding: 0x80, zeros to 56 mod 64, then the bit length. -/
def md5Pad (msg : List Nat) : List Nat :=
  msg ++ [128] ++ List.replicate ((56 - (msg.length + 1) % 64 + 64) % 64) 0
      ++ lenBytesLE (8 * msg.length)

/-- One of the 64 MD5 operations on the running state `(A, B, C, D)`. -/
def md5Step (M : List Nat) (st : Nat × Nat × Nat × Nat) (i : Nat) : Nat × Nat × Nat × Nat :=
  let (A, B, C, D) := st
  let mask := 4294967295
  let F : Nat :=
    if i < 16 then (B &&& C) ||| ((B ^^^ mask) &&& D)
    else if i < 32 then (D &&& B) ||| ((D ^^^ mask) &&& C)
    else if i < 48 then B ^^^ C ^^^ D
    else C ^^^ (B ||| (D ^^^ mask))
  let g : Nat :=
    if i < 16 then i
    else if i < 32 then (5 * i + 1) % 16
    else if i < 48 then (3 * i + 5) % 16
    else (7 * i) % 16
  let F2 := (F + A + md5K.getD i 0 + M.getD g 0) % 4294967296
  (D, (B + rotl32 F2 (md5S.getD i 0)) % 4294967296, B, C)

/-- Process one 64-byte chunk. -/
def md5Chunk (st : Nat × Nat × Nat × Nat) (chunk : List Nat) : Nat × Nat × Nat × Nat :=
  let M := toWordsLE chunk
  let (A, B, C, D) := (List.range 64).foldl (md5Step M) st
  ((st.1 + A) % 4294967296, (st.2.1 + B) % 4294967296,
   (st.2.2.1 + C) % 4294967296, (st.2.2.2 + D) % 4294967296)

/-- Process `n` chunks of 64 bytes. -/
def md5Chunks (st : Nat × Nat × Nat × Nat) (l : List Nat) : Nat → Nat × Nat × Nat × Nat
  | 0 => st
  | n + 1 => md5Chunks (md5Chunk st (l.take 64)) (l.drop 64) n

/-- Lowercase hex digit of a value below 16. -/
def hexDigit (n : Nat) : Char := if n < 10 then Char.ofNat (48 + n) else Char.ofNat (87 + n)

/-- Two lowercase hex digits of a byte. -/
def byteHex (b : Nat) : List Char := [hexDigit (b / 16), hexDigit (b % 16)]

/-- The four little-endian bytes of a 32-bit word. -/
def wordBytesLE (w : Nat) : List Nat :=
  [w % 256, (w >>> 8) % 256, (w >>> 16) % 256, (w >>> 24) % 256]

/-- `hashlib.md5(s.encode()).hexdigest()` for ASCII input. -/
def md5hex (s : String) : String :=
  let msg := s.toList.map Char.toNat
  let padded := md5Pad msg
  let (a, b, c, d) :=
    md5Chunks (1732584193, 4023233417, 2562383102, 271733878) padded (padded.length / 64)
  String.mk (((wordBytesLE a ++ wordBytesLE b ++ wordBytesLE c ++ wordBytesLE d).map byteHex).flatten)

/-- `get_session_id`: md5 of `f"{ip}_{user_agent}_{day}"`, truncated to the
first 12 hex characters.  The `day` argument stands for
`datetime.now().strftime('%Y%m%d')`, made explicit here. -/
def get_session_id (ip user_agent day : String) : String :=
  (md5hex (ip ++ "_" ++ user_agent ++ "_" ++ day)).take 12

/-! ### Semantic retrieval (`src/app.py`, lines 87-135) -/

open scoped Classical in
/-- `cosine_similarity(a, b)`: dot product over the product of Euclidean
norms (`norm_a`, `norm_b` written inline), and exactly 0.0 when either norm
is zero. -/
noncomputable def cosine_similarity (a b : List ℝ) : ℝ :=
  if Real.sqrt ((a.map (fun x => x * x)).sum) = 0
      ∨ Real.sqrt ((b.map (fun y => y * y)).sum) = 0 then 0
  else (List.zipWith (fun x y => x * y) a b).sum
    / (Real.sqrt ((a.map (fun x => x * x)).sum) * Real.sqrt ((b.map (fun y => y * y)).sum))

/-- The `scored` list of `retrieve_relevant_qa` after the in-place descending
sort: entries zipped with their precomputed embeddings, scored against the
query embedding, sorted by non-increasing score (Python's stable sort). -/
noncomputable def scoredSorted (query_emb : List ℝ) (qaPairs : List QA)
    (qa_embeddings : List (List ℝ)) : List (ℝ × QA) :=
  ((qaPairs.zip qa_embeddings).map
      (fun p => (cosine_similarity query_emb p.2, p.1))).mergeSort
    (fun x y => decide (y.1 ≤ x.1))

/-- `retrieve_relevant_qa(query, k)` given the query's embedding: the items of
the top `k` scored pairs. -/
noncomputable def retrieve_relevant_qa (query_emb : List ℝ) (qaPairs : List QA)
    (qa_embeddings : List (List ℝ)) (k : Nat) : List QA :=
  ((scoredSorted query_emb qaPairs qa_embeddings).take k).map Prod.snd

/-! ### Concrete fixtures used by witnesses and counterexamples -/

/-- A one-entry knowledge set matching the spec's end-to-end scenario. -/
def demoQAs : List QA :=
  [⟨"What is your current role?", "Concierge Security Engineer 3 & Team Lead at Arctic Wolf."⟩]

/-- A two-entry knowledge set whose entries tie on overlap scores. -/
def tieQAs : List QA :=
  [⟨"alpha beta", "first"⟩, ⟨"alpha beta", "second"⟩]

/-- A session holding no turns yet. -/
def demoSession : ConversationSession :=
  { session_id := "abc", ip_address := "127.0.0.1", user_agent := "UA"
    conversation_turns := [], total_messages := 0 }

/-- A memory map holding exactly the session `"abc"`. -/
def demoConvs : ConvMap := fun k => if k = "abc" then some demoSession else none

/-- Durable storage holding exactly the per-session file of `"abc"`. -/
def demoFiles : String → Bool := fun k => k == "abc"

/-- Three user/bot message pairs. -/
def demoMsgs : List (String × String) := [("a", "b"), ("c", "d"), ("e", "f")]

/-! ### Lemmas about the lexical matcher -/

theorem maxOverlap_nil (w : List String) : maxOverlap w [] = 0 := rfl

theorem maxOverlap_cons (w : List String) (qa : QA) (rest : List QA) :
    maxOverlap w (qa :: rest) = max (overlapScore w qa) (maxOverlap w rest) := by
  simp [maxOverlap]

/-- The loop never updates when every remaining overlap is at most the
current score. -/
theorem findBestMatch_of_le (w : List String) (l : List QA) (b : Option QA) (s : Nat)
    (h : maxOverlap w l ≤ s) : findBestMatch w l (b, s) = (b, s) := by
  induction l generalizing b s with
  | nil => rfl
  | cons qa rest ih =>
      rw [maxOverlap_cons] at h
      unfold findBestMatch
      rw [if_neg (by simp only [Nat.not_lt]; exact le_trans (le_max_left _ _) h)]
      exact ih b s (le_trans (le_max_right _ _) h)

/-- When some remaining overlap strictly beats the current score, the loop
delivers the greatest overlap together with the earliest entry attaining it. -/
theorem findBestMatch_of_lt (w : List String) (l : List QA) (b : Option QA) (s : Nat)
    (h : s < maxOverlap w l) :
    findBestMatch w l (b, s) =
      (l.find? (fun qa => overlapScore w qa == maxOverlap w l), maxOverlap w l) := by
  induction l generalizing b s with
  | nil => simp [maxOverlap] at h
  | cons qa rest ih =>
      rcases le_or_lt (maxOverlap w rest) (overlapScore w qa) with hle | hlt
      · have hM : maxOverlap w (qa :: rest) = overlapScore w qa := by
          rw [maxOverlap_cons]; exact max_eq_left hle
        rw [hM] at h ⊢
        unfold findBestMatch
        rw [if_pos h, List.find?_cons_of_pos _ (by simp)]
        exact findBestMatch_of_le w rest (some qa) (overlapScore w qa) hle
      · have hM : maxOverlap w (qa :: rest) = maxOverlap w rest := by
          rw [maxOverlap_cons]; exact max_eq_right (le_of_lt hlt)
        rw [hM] at h ⊢
        rw [List.find?_cons_of_neg _ (by simp; exact ne_of_lt hlt)]
        unfold findBestMatch
        by_cases hs : s < overlapScore w qa
        · rw [if_pos hs]; exact ih (some qa) (overlapScore w qa) hlt
        · rw [if_neg hs]; exact ih b s h

/-- The greatest overlap is attained by some entry whenever it is non-zero. -/
theorem maxOverlap_attained (w : List String) (l : List QA) (h : maxOverlap w l ≠ 0) :
    ∃ qa ∈ l, overlapScore w qa = maxOverlap w l := by
  induction l with
  | nil => simp [maxOverlap] at h
  | cons qa rest ih =>
      rcases max_choice (overlapScore w qa) (maxOverlap w rest) with hm | hm
      · exact ⟨qa, List.mem_cons_self qa rest, by rw [maxOverlap_cons, hm]⟩
      · rw [maxOverlap_cons] at h ⊢
        rw [hm] at h ⊢
        obtain ⟨qb, hmem, heq⟩ := ih h
        exact ⟨qb, List.mem_cons_of_mem qa hmem, heq⟩

/-- The loop from the initial accumulator `(None, 0)`: the final score is the
greatest overlap, and the final entry is the earliest entry attaining it
(`None` exactly when every overlap is zero). -/
theorem findBestMatch_spec (w : List String) (l : List QA) :
    findBestMatch w l (none, 0) =
      if maxOverlap w l = 0 then (none, 0)
      else (l.find? (fun qa => overlapScore w qa == maxOverlap w l), maxOverlap w l) := by
  by_cases h : maxOverlap w l = 0
  · rw [if_pos h]; exact findBestMatch_of_le w l none 0 (le_of_eq h)
  · rw [if_neg h]; exact findBestMatch_of_lt w l none 0 (Nat.pos_of_ne_zero h)

/-- Positive final score: the final entry is a real entry whose overlap equals
the final score. -/
theorem findBestMatch_pos (w : List String) (l : List QA)
    (h : 0 < (findBestMatch w l (none, 0)).2) :
    ∃ qa, (findBestMatch w l (none, 0)).1 = some qa ∧ qa ∈ l ∧
      overlapScore w qa = (findBestMatch w l (none, 0)).2 := by
  rw [findBestMatch_spec] at h ⊢
  by_cases hM : maxOverlap w l = 0
  · rw [if_pos hM] at h; exact absurd h (by simp)
  · rw [if_neg hM] at h ⊢
    obtain ⟨qa0, hmem0, heq0⟩ := maxOverlap_attained w l hM
    have hsome : (l.find? (fun qa => overlapScore w qa == maxOverlap w l)).isSome := by
      rw [List.find?_isSome]
      exact ⟨qa0, hmem0, by simp [heq0]⟩
    obtain ⟨qa, hqa⟩ := Option.isSome_iff_exists.1 hsome
    refine ⟨qa, by simp [hqa], List.mem_of_find?_eq_some hqa, ?_⟩
    have := List.find?_some hqa
    simpa using this

/-- Zero final score leaves the accumulator untouched. -/
theorem findBestMatch_zero (w : List String) (l : List QA)
    (h : maxOverlap w l = 0) : findBestMatch w l (none, 0) = (none, 0) :=
  findBestMatch_of_le w l none 0 (le_of_eq h)

/-- C10: at the end of the lexical matching loop, `best_match` is `None` iff
`best_score` is 0; and whenever `best_score > 0`, `best_match` is an entry of
the knowledge set whose question word-set overlap with the message equals
`best_score`, so a nominal best entry never comes with a zero score. -/
theorem C10_thm (message : String) (qaPairs : List QA) :
    ((findBestMatch (pySplit (normalizeMsg message)) qaPairs (none, 0)).1 = none
      ↔ (findBestMatch (pySplit (normalizeMsg message)) qaPairs (none, 0)).2 = 0)
    ∧ (0 < (findBestMatch (pySplit (normalizeMsg message)) qaPairs (none, 0)).2 →
        ∃ qa, (findBestMatch (pySplit (normalizeMsg message)) qaPairs (none, 0)).1 = some qa
          ∧ qa ∈ qaPairs
          ∧ overlapScore (pySplit (normalizeMsg message)) qa
              = (findBestMatch (pySplit (normalizeMsg message)) qaPairs (none, 0)).2) := by
  set w := pySplit (normalizeMsg message) with hw
  constructor
  · by_cases hM : maxOverlap w qaPairs = 0
    · rw [findBestMatch_zero w qaPairs hM]; simp
    · constructor
      · intro hnone
        obtain ⟨qa, hqa, _, _⟩ := findBestMatch_pos w qaPairs
          (by rw [findBestMatch_spec, if_neg hM]; exact Nat.pos_of_ne_zero hM)
        rw [hnone] at hqa; cases hqa
      · intro hzero
        rw [findBestMatch_spec, if_neg hM] at hzero
        exact absurd hzero hM
  · exact findBestMatch_pos w qaPairs

/-- Witness for C10 at a concrete message and knowledge set. -/
theorem C10_witness :
    0 < (findBestMatch (pySplit (normalizeMsg "what is your current role")) demoQAs (none, 0)).2
    ∧ ∃ qa, (findBestMatch (pySplit (normalizeMsg "what is your current role")) demoQAs (none, 0)).1 = some qa
        ∧ qa ∈ demoQAs
        ∧ overlapScore (pySplit (normalizeMsg "what is your current role")) qa
            = (findBestMatch (pySplit (normalizeMsg "what is your current role")) demoQAs (none, 0)).2 :=
  ⟨by decide, (C10_thm "what is your current role" demoQAs).2 (by decide)⟩

/-- C4: the lexical match score of an entry is the cardinality of the
intersection of the lowercase word-sets of message and question; the final
score is the greatest such score; the earliest entry wins ties (the final
entry is the first one attaining the final score); and a message sharing no
word with any question ends the loop at `(None, 0)`. -/
theorem C4_thm (message : String) (qaPairs : List QA) :
    (∀ qa, overlapScore (pySplit (normalizeMsg message)) qa
        = ((pySplit (strLower qa.question)).toFinset
            ∩ (pySplit (normalizeMsg message)).toFinset).card)
    ∧ (findBestMatch (pySplit (normalizeMsg message)) qaPairs (none, 0)).2
        = maxOverlap (pySplit (normalizeMsg message)) qaPairs
    ∧ (0 < (findBestMatch (pySplit (normalizeMsg message)) qaPairs (none, 0)).2 →
        (findBestMatch (pySplit (normalizeMsg message)) qaPairs (none, 0)).1
          = qaPairs.find? (fun qa => overlapScore (pySplit (normalizeMsg message)) qa
              == (findBestMatch (pySplit (normalizeMsg message)) qaPairs (none, 0)).2))
    ∧ ((∀ qa ∈ qaPairs,
          ((pySplit (strLower qa.question)).toFinset
            ∩ (pySplit (normalizeMsg message)).toFinset).card = 0) →
        findBestMatch (pySplit (normalizeMsg message)) qaPairs (none, 0) = (none, 0)) := by
  set w := pySplit (normalizeMsg message) with hw
  have hmax0 : (∀ qa ∈ qaPairs, overlapScore w qa = 0) → maxOverlap w qaPairs = 0 := by
    intro hall
    induction qaPairs with
    | nil => rfl
    | cons qa rest ih =>
        rw [maxOverlap_cons, hall qa (List.mem_cons_self qa rest)]
        rw [ih (fun q hq => hall q (List.mem_cons_of_mem qa hq))]
        simp
  refine ⟨fun qa => rfl, ?_, ?_, ?_⟩
  · by_cases hM : maxOverlap w qaPairs = 0
    · rw [findBestMatch_zero w qaPairs hM, hM]
    · rw [findBestMatch_of_lt w qaPairs none 0 (Nat.pos_of_ne_zero hM)]
  · intro hpos
    have hM : maxOverlap w qaPairs ≠ 0 := by
      intro h0
      rw [findBestMatch_zero w qaPairs h0] at hpos
      exact absurd hpos (by simp)
    rw [findBestMatch_of_lt w qaPairs none 0 (Nat.pos_of_ne_zero hM)]
  · intro hall
    exact findBestMatch_zero w qaPairs (hmax0 (fun qa hqa => hall qa hqa))

/-- Witness for C4 on a knowledge set with a tie: the first tying entry wins. -/
theorem C4_witness :
    0 < (findBestMatch (pySplit (normalizeMsg "alpha beta")) tieQAs (none, 0)).2
    ∧ (findBestMatch (pySplit (normalizeMsg "alpha beta")) tieQAs (none, 0)).1
        = tieQAs.find? (fun qa => overlapScore (pySplit (normalizeMsg "alpha beta")) qa
            == (findBestMatch (pySplit (normalizeMsg "alpha beta")) tieQAs (none, 0)).2) :=
  ⟨by decide, (C4_thm "alpha beta" tieQAs).2.2.1 (by decide)⟩

/-! ### Lemmas about the conversation ledger -/

theorem turnsOf_log (convs : ConvMap) (sid um br ip ua : String) :
    turnsOf (log_conversation convs sid um br ip ua) sid
      = turnsOf convs sid ++ [mkTurn ((turnsOf convs sid).length + 1) um br] := by
  cases hcs : convs sid with
  | none => simp [log_conversation, turnsOf, hcs]
  | some s => simp [log_conversation, turnsOf, hcs]

theorem turnsCount_log (convs : ConvMap) (sid um br ip ua : String) :
    turnsCount (log_conversation convs sid um br ip ua) sid
      = turnsCount convs sid + 1 := by
  unfold turnsCount
  rw [turnsOf_log]
  simp

theorem buildTurns_length (msgs : List (String × String)) :
    ∀ k, (buildTurns k msgs).length = msgs.length := by
  induction msgs with
  | nil => intro k; rfl
  | cons p rest ih => intro k; simp [buildTurns, ih]

theorem buildTurns_map_turn_number (msgs : List (String × String)) :
    ∀ k, (buildTurns k msgs).map ConversationTurn.turn_number
      = List.range' (k + 1) msgs.length := by
  induction msgs with
  | nil => intro k; rfl
  | cons p rest ih =>
      intro k
      rw [List.length_cons, List.range'_succ]
      simp [buildTurns, mkTurn, ih]

theorem buildTurns_take (msgs : List (String × String)) :
    ∀ k n, buildTurns k (msgs.take n) = (buildTurns k msgs).take n := by
  induction msgs with
  | nil => intro k n; simp [buildTurns]
  | cons p rest ih =>
      intro k n
      cases n with
      | zero => rfl
      | succ m => simp [buildTurns, ih]

theorem turnsOf_recordAll (msgs : List (String × String)) :
    ∀ (convs : ConvMap) (sid ip ua : String),
      turnsOf (recordAll convs sid ip ua msgs) sid
        = turnsOf convs sid ++ buildTurns (turnsOf convs sid).length msgs := by
  induction msgs with
  | nil => intro convs sid ip ua; simp [recordAll, buildTurns]
  | cons p rest ih =>
      intro convs sid ip ua
      have hstep : recordAll convs sid ip ua (p :: rest)
          = recordAll (log_conversation convs sid p.1 p.2 ip ua) sid ip ua rest := rfl
      rw [hstep, ih, turnsOf_log, List.length_append]
      simp [buildTurns, List.append_assoc]

/-- C8: `log_conversation` is append-only: starting from a session with no
turns, after `N` calls the in-memory turn list has length exactly `N`, its
`turn_number` fields are exactly `1..N` in order, and every intermediate
state is literally a prefix of the final turn list (so no previously
appended turn is ever mutated). -/
theorem C8_thm (convs : ConvMap) (sid ip ua : String) (msgs : List (String × String))
    (h : turnsOf convs sid = []) :
    (turnsOf (recordAll convs sid ip ua msgs) sid).length = msgs.length
    ∧ (turnsOf (recordAll convs sid ip ua msgs) sid).map ConversationTurn.turn_number
        = List.range' 1 msgs.length
    ∧ ∀ n, turnsOf (recordAll convs sid ip ua (msgs.take n)) sid
        = (turnsOf (recordAll convs sid ip ua msgs) sid).take n := by
  have hbase : ∀ ms : List (String × String),
      turnsOf (recordAll convs sid ip ua ms) sid = buildTurns 0 ms := by
    intro ms
    rw [turnsOf_recordAll, h]
    rfl
  refine ⟨?_, ?_, ?_⟩
  · rw [hbase, buildTurns_length]
  · rw [hbase, buildTurns_map_turn_number]
  · intro n
    rw [hbase, hbase, buildTurns_take]

/-- Witness for C8: three turns logged into an empty ledger. -/
theorem C8_witness :
    turnsOf emptyConvs "s0" = []
    ∧ (turnsOf (recordAll emptyConvs "s0" "127.0.0.1" "UA" demoMsgs) "s0").map
        ConversationTurn.turn_number = List.range' 1 3
    ∧ turnsOf (recordAll emptyConvs "s0" "127.0.0.1" "UA" (demoMsgs.take 2)) "s0"
        = (turnsOf (recordAll emptyConvs "s0" "127.0.0.1" "UA" demoMsgs) "s0").take 2 :=
  ⟨rfl, (C8_thm emptyConvs "s0" "127.0.0.1" "UA" demoMsgs rfl).2.1,
    (C8_thm emptyConvs "s0" "127.0.0.1" "UA" demoMsgs rfl).2.2 2⟩

/-! ### Claim C2: deleting a conversation -/

/-- C2 counterexample: a session present only in memory (no durable file) is
deleted from memory, yet the endpoint reports "Conversation not found or
already deleted" instead of success, refuting "reports success if at least
the in-memory copy existed or the file existed". -/
theorem C2_counterexample :
    demoConvs "abc" = some demoSession
    ∧ (delete_conversation demoConvs (fun _ => false) none "abc").2.2
        = ApiReply.message "Conversation not found or already deleted"
    ∧ (delete_conversation demoConvs (fun _ => false) none "abc").1 "abc" = none := by
  refine ⟨by decide, rfl, ?_⟩
  show (if "abc" = "abc" then none else demoConvs "abc") = none
  rw [if_pos rfl]

/-- Whatever the durable store holds, the in-memory side of a delete is the
pointwise erasure of the session. -/
theorem delete_conversation_fst (convs : ConvMap) (files : String → Bool)
    (rm : Option String) (sid : String) :
    (delete_conversation convs files rm sid).1
      = fun k => if k = sid then none else convs k := by
  unfold delete_conversation
  cases hf : files sid
  · simp
  · cases rm <;> simp

/-- After a successful delete the durable file of the session is gone (or was
never there). -/
theorem delete_conversation_files_gone (convs : ConvMap) (files : String → Bool)
    (sid : String) :
    (delete_conversation convs files none sid).2.1 sid = false := by
  unfold delete_conversation
  cases hf : files sid
  · simpa using hf
  · simp

/-- The success message is returned exactly on the file-existed branch. -/
theorem delete_conversation_reply_found (convs : ConvMap) (files : String → Bool)
    (sid : String) (hf : files sid = true) :
    (delete_conversation convs files none sid).2.2
      = ApiReply.message ("Conversation " ++ sid ++ " deleted successfully") := by
  unfold delete_conversation
  rw [hf]
  simp

/-- The not-found message is returned exactly when the file is absent — even
when the in-memory copy existed and was deleted. -/
theorem delete_conversation_reply_notfound (convs : ConvMap) (files : String → Bool)
    (sid : String) (hf : files sid = false) :
    (delete_conversation convs files none sid).2.2
      = ApiReply.message "Conversation not found or already deleted" := by
  unfold delete_conversation
  rw [hf]
  simp

/-- Deleting a session absent from both stores changes nothing and reports
not-found. -/
theorem delete_conversation_absent (convs : ConvMap) (files : String → Bool)
    (sid : String) (hmem : convs sid = none) (hfile : files sid = false) :
    delete_conversation convs files none sid
      = (convs, files, ApiReply.message "Conversation not found or already deleted") := by
  have hc : (fun k => if k = sid then none else convs k) = convs := by
    funext k
    by_cases hk : k = sid
    · subst hk; rw [if_pos rfl, hmem]
    · rw [if_neg hk]
  unfold delete_conversation
  rw [hfile]
  simp only [Bool.false_eq_true, if_false]
  rw [hc]

/-- C2 amended: `delete(session_id)` removes the in-memory copy and the
durable file independently and is idempotent, but it reports success exactly
when the durable file existed (and its removal succeeded); when neither the
file nor the memory copy existed — and also when only the memory copy
existed — it reports not-found. -/
theorem C2_thm (convs : ConvMap) (files : String → Bool) (sid : String) :
    (delete_conversation convs files none sid).1 sid = none
    ∧ (delete_conversation convs files none sid).2.1 sid = false
    ∧ (files sid = true →
        (delete_conversation convs files none sid).2.2
          = ApiReply.message ("Conversation " ++ sid ++ " deleted successfully"))
    ∧ (files sid = false →
        (delete_conversation convs files none sid).2.2
          = ApiReply.message "Conversation not found or already deleted")
    ∧ delete_conversation (delete_conversation convs files none sid).1
        (delete_conversation convs files none sid).2.1 none sid
        = ((delete_conversation convs files none sid).1,
            (delete_conversation convs files none sid).2.1,
            ApiReply.message "Conversation not found or already deleted") := by
  refine ⟨?_, delete_conversation_files_gone convs files sid,
    delete_conversation_reply_found convs files sid,
    delete_conversation_reply_notfound convs files sid, ?_⟩
  · rw [delete_conversation_fst]; simp
  · exact delete_conversation_absent _ _ _
      (by rw [delete_conversation_fst]; simp)
      (delete_conversation_files_gone convs files sid)

/-- Witness for C2 on a session present in both memory and durable storage. -/
theorem C2_witness :
    (delete_conversation demoConvs demoFiles none "abc").2.2
      = ApiReply.message ("Conversation " ++ "abc" ++ " deleted successfully")
    ∧ (delete_conversation demoConvs demoFiles none "abc").1 "abc" = none :=
  ⟨(C2_thm demoConvs demoFiles "abc").2.2.1 (by decide),
    (C2_thm demoConvs demoFiles "abc").1⟩

/-! ### Claim C9: session identity -/

/-- C9 amended: `get_session_id` is a pure deterministic function of
`(ip, user_agent, day)`: identical inputs always yield the identical
session id.  (Distinct days need not yield distinct ids: the 12-character
truncation admits collisions, see the counterexample.) -/
theorem C9_thm (ip user_agent day ip2 ua2 day2 : String)
    (h1 : ip = ip2) (h2 : user_agent = ua2) (h3 : day = day2) :
    get_session_id ip user_agent day = get_session_id ip2 ua2 day2 := by
  rw [h1, h2, h3]

/-- Witness for C9 at concrete inputs. -/
theorem C9_witness :
    get_session_id "1.2.3.4" "Mozilla/5.0" "20261012"
      = get_session_id "1.2.3.4" "Mozilla/5.0" "20261012" :=
  C9_thm "1.2.3.4" "Mozilla/5.0" "20261012" "1.2.3.4" "Mozilla/5.0" "20261012" rfl rfl rfl

set_option maxRecDepth 100000 in
/-- C9 counterexample: two distinct calendar days (30 Jul 6265 and
21 Jun 8550, both valid `%Y%m%d` values) yield the same session id for the
same caller, because the two full MD5 digests — which do differ — agree on
their first 12 hex characters.  New-day-new-session therefore fails. -/
theorem C9_counterexample :
    ("62650730" : String) ≠ "85500621"
    ∧ get_session_id "127.0.0.1" "UA10" "62650730"
        = get_session_id "127.0.0.1" "UA10" "85500621"
    ∧ md5hex "127.0.0.1_UA10_62650730" ≠ md5hex "127.0.0.1_UA10_85500621" := by
  refine ⟨by decide, by decide, by decide⟩

/-! ### Claim C1: the unavailable path and the ledger -/

/-- C1 counterexample: with the completion capability unset the endpoint does
return the fixed unavailable reply, but it records no `ConversationTurn` at
all — the unavailable terminal state never reaches the Conversation Ledger,
refuting "still records exactly one new ConversationTurn". -/
theorem C1_counterexample :
    (chat_endpoint false demoQAs "system prompt" (fun _ _ => Except.ok "fine")
        (okLogger "127.0.0.1" "UA") emptyConvs "sid0" "hello").reply = unavailable_reply
    ∧ turnsCount (chat_endpoint false demoQAs "system prompt" (fun _ _ => Except.ok "fine")
        (okLogger "127.0.0.1" "UA") emptyConvs "sid0" "hello").convs "sid0" = 0 :=
  ⟨rfl, rfl⟩

/-- C1 amended: with the deployed (never-raising) logger, every terminal
state of a `/chat` request with the completion capability configured hands
its (request, response) pair to the ledger — exactly one new turn is
recorded for the caller's session — while the capability-unset path returns
the fixed unavailable reply and leaves the ledger untouched. -/
theorem C1_thm (qaPairs : List QA) (system_prompt : String)
    (complete : String → String → Except String String)
    (convs : ConvMap) (sid msg ip ua : String) :
    turnsCount (chat_endpoint true qaPairs system_prompt complete (okLogger ip ua)
        convs sid msg).convs sid = turnsCount convs sid + 1
    ∧ (chat_endpoint false qaPairs system_prompt complete (okLogger ip ua)
        convs sid msg).reply = unavailable_reply
    ∧ (chat_endpoint false qaPairs system_prompt complete (okLogger ip ua)
        convs sid msg).convs = convs := by
  refine ⟨?_, rfl, rfl⟩
  unfold chat_endpoint chatBody
  simp only [finishTurn, okLogger]
  split
  next o heq =>
    repeat' split at heq
    all_goals
      first
        | (injection heq with h; subst h; simp [turnsCount_log])
        | injection heq
  next e2 convsE retr heq =>
    repeat' split at heq
    all_goals
      first
        | (injection heq with h
           injection h with h1 h2
           injection h2 with h2a h2b
           subst h2a
           simp [turnsCount_log])
        | injection heq

/-! ### Claim C6: generation failure -/

/-- C6: when the completion call raises, the reply is the fixed technical-
difficulties message — independent of the error — the triggering error is
recorded server-side (and only there), and this holds for an arbitrary
ledger-write capability, so a logging failure on this path cannot replace
the user-visible reply. -/
theorem C6_thm (qaPairs : List QA) (system_prompt : String) (logFn : LogFn)
    (convs : ConvMap) (sid msg e : String)
    (h1 : containsAny (normalizeMsg msg) greeting_patterns = false)
    (h2 : containsAny (normalizeMsg msg) thanks_patterns = false)
    (h3 : containsAny (normalizeMsg msg) goodbye_patterns = false)
    (h4 : containsAny (normalizeMsg msg) help_patterns = false)
    (h5 : containsAny (normalizeMsg msg) who_patterns = false)
    (h6 : 0 < (findBestMatch (pySplit (normalizeMsg msg)) qaPairs (none, 0)).2) :
    (chat_endpoint true qaPairs system_prompt (fun _ _ => Except.error e) logFn
        convs sid msg).reply = error_response
    ∧ (chat_endpoint true qaPairs system_prompt (fun _ _ => Except.error e) logFn
        convs sid msg).server_log = ["Chat error: " ++ e] := by
  obtain ⟨qa, hqa, hmem, hsc⟩ := findBestMatch_pos _ _ h6
  rcases hfb : findBestMatch (pySplit (normalizeMsg msg)) qaPairs (none, 0) with ⟨fst, snd⟩
  rw [hfb] at hqa h6
  simp only at hqa h6
  subst hqa
  refine ⟨?_, ?_⟩ <;>
  · unfold chat_endpoint chatBody
    simp only [h1, h2, h3, h4, h5, Bool.false_eq_true, if_false, hfb]
    rw [if_pos h6]

/-- Witness for C6: a concrete matched question, a raising completion call,
and a ledger write that also raises. -/
theorem C6_witness :
    (chat_endpoint true demoQAs "sys" (fun _ _ => Except.error "boom")
        (failLogger "disk full") emptyConvs "s0" "what is your current role").reply
      = error_response
    ∧ (chat_endpoint true demoQAs "sys" (fun _ _ => Except.error "boom")
        (failLogger "disk full") emptyConvs "s0" "what is your current role").server_log
      = ["Chat error: " ++ "boom"] :=
  C6_thm demoQAs "sys" (failLogger "disk full") emptyConvs "s0"
    "what is your current role" "boom"
    (by decide) (by decide) (by decide) (by decide) (by decide) (by decide)

/-! ### Claim C7: the intent pre-filter -/

set_option maxRecDepth 40000 in
/-- C7 counterexample to "the five pattern lists are mutually exclusive": the
thanks pattern `"ty"` occurs inside the goodbye pattern `"ttyl"`, so the
message `"ttyl"` — itself a listed goodbye pattern containing no greeting
pattern — matches the thanks category (checked earlier) and draws the thanks
reply, not the goodbye reply. -/
theorem C7_counterexample :
    "ttyl" ∈ goodbye_patterns
    ∧ "ty" ∈ thanks_patterns
    ∧ containsAny (normalizeMsg "ttyl") thanks_patterns = true
    ∧ containsAny (normalizeMsg "ttyl") goodbye_patterns = true
    ∧ (chat_endpoint true demoQAs "sys" (fun _ _ => Except.ok "unused")
        (okLogger "127.0.0.1" "UA") emptyConvs "s0" "ttyl").reply = thanks_response
    ∧ thanks_response ≠ goodbye_response := by
  refine ⟨by decide, by decide, by decide, by decide, by decide, by decide⟩

/-- C7 amended: a message whose lowercased, trimmed text contains a greeting
pattern and none of the thanks/goodbye/help/identity patterns always draws
the fixed greeting canned reply and never reaches the retrieval loop.  (The
five pattern lists are, however, not mutually exclusive: see the
counterexample.) -/
theorem C7_thm (qaPairs : List QA) (system_prompt : String)
    (complete : String → String → Except String String)
    (convs : ConvMap) (sid msg ip ua : String)
    (hg : containsAny (normalizeMsg msg) greeting_patterns = true)
    (h2 : containsAny (normalizeMsg msg) thanks_patterns = false)
    (h3 : containsAny (normalizeMsg msg) goodbye_patterns = false)
    (h4 : containsAny (normalizeMsg msg) help_patterns = false)
    (h5 : containsAny (normalizeMsg msg) who_patterns = false) :
    (chat_endpoint true qaPairs system_prompt complete (okLogger ip ua)
        convs sid msg).reply = greeting_response
    ∧ (chat_endpoint true qaPairs system_prompt complete (okLogger ip ua)
        convs sid msg).retrieval_invoked = false := by
  refine ⟨?_, ?_⟩ <;>
  · unfold chat_endpoint chatBody
    simp [hg, finishTurn, okLogger]

/-- Witness for C7 at the message `"hello"`. -/
theorem C7_witness :
    (chat_endpoint true demoQAs "sys" (fun _ _ => Except.ok "unused")
        (okLogger "127.0.0.1" "UA") emptyConvs "s0" "hello").reply = greeting_response
    ∧ (chat_endpoint true demoQAs "sys" (fun _ _ => Except.ok "unused")
        (okLogger "127.0.0.1" "UA") emptyConvs "s0" "hello").retrieval_invoked = false :=
  C7_thm demoQAs "sys" (fun _ _ => Except.ok "unused") emptyConvs "s0" "hello"
    "127.0.0.1" "UA" (by decide) (by decide) (by decide) (by decide) (by decide)

/-! ### Lemmas about cosine similarity and the semantic retriever -/

theorem zipWith_mul_self (v : List ℝ) :
    List.zipWith (fun x y => x * y) v v = v.map (fun x => x * x) := by
  induction v with
  | nil => rfl
  | cons x rest ih => simp [ih]

theorem sumSq_nonneg (v : List ℝ) : 0 ≤ (v.map (fun x => x * x)).sum :=
  List.sum_nonneg (by
    intro x hx
    obtain ⟨y, _, rfl⟩ := List.mem_map.1 hx
    exact mul_self_nonneg y)

theorem sumSq_pos (v : List ℝ) : (∃ x ∈ v, x ≠ 0) → 0 < (v.map (fun x => x * x)).sum := by
  induction v with
  | nil => rintro ⟨x, hx, _⟩; cases hx
  | cons y rest ih =>
      rintro ⟨x, hx, hne⟩
      rw [List.map_cons, List.sum_cons]
      rcases List.mem_cons.1 hx with rfl | h2
      · exact add_pos_of_pos_of_nonneg (mul_self_pos.2 hne) (sumSq_nonneg rest)
      · exact add_pos_of_nonneg_of_pos (mul_self_nonneg y) (ih ⟨x, h2, hne⟩)

/-- C5: `cosine_similarity` is symmetric in its two arguments; every vector
with a non-zero entry has similarity exactly 1 with itself; and the result
is exactly 0 whenever either argument has zero Euclidean norm. -/
theorem C5_thm :
    (∀ a b : List ℝ, cosine_similarity a b = cosine_similarity b a)
    ∧ (∀ v : List ℝ, (∃ x ∈ v, x ≠ 0) → cosine_similarity v v = 1)
    ∧ (∀ a b : List ℝ,
        Real.sqrt ((a.map (fun x => x * x)).sum) = 0
          ∨ Real.sqrt ((b.map (fun y => y * y)).sum) = 0 →
        cosine_similarity a b = 0) := by
  refine ⟨?_, ?_, ?_⟩
  · intro a b
    unfold cosine_similarity
    by_cases h : Real.sqrt ((a.map (fun x => x * x)).sum) = 0
        ∨ Real.sqrt ((b.map (fun y => y * y)).sum) = 0
    · rw [if_pos h, if_pos (Or.symm h)]
    · rw [if_neg h, if_neg (fun hh => h (Or.symm hh))]
      rw [List.zipWith_comm_of_comm (fun x y => x * y) mul_comm a b]
      rw [mul_comm (Real.sqrt ((a.map (fun x => x * x)).sum))]
  · intro v hv
    have hs : 0 < (v.map (fun x => x * x)).sum := sumSq_pos v hv
    have hn : ¬ Real.sqrt ((v.map (fun x => x * x)).sum) = 0 := by
      rw [Real.sqrt_eq_zero']
      exact not_le.2 hs
    unfold cosine_similarity
    rw [if_neg (by rintro (h | h) <;> exact hn h)]
    rw [zipWith_mul_self v, Real.mul_self_sqrt (le_of_lt hs)]
    exact div_self (ne_of_gt hs)
  · intro a b h
    unfold cosine_similarity
    rw [if_pos h]

/-- Witness for C5 at concrete vectors. -/
theorem C5_witness :
    cosine_similarity [1, 2] [1, 2] = 1 ∧ cosine_similarity [0, 0] [3] = 0 :=
  ⟨C5_thm.2.1 [1, 2] ⟨1, by simp, by norm_num⟩,
    C5_thm.2.2 [0, 0] [3] (Or.inl (by simp))⟩

theorem scoredSorted_sorted (query_emb : List ℝ) (qaPairs : List QA)
    (qa_embeddings : List (List ℝ)) :
    (scoredSorted query_emb qaPairs qa_embeddings).Pairwise (fun p q => q.1 ≤ p.1) := by
  have h := @List.sorted_mergeSort (ℝ × QA) (fun x y => decide (y.1 ≤ x.1))
    (fun a b c hab hbc => by
      simp only [decide_eq_true_eq] at *
      exact le_trans hbc hab)
    (fun a b => by
      rcases le_total b.1 a.1 with h | h <;> simp [h])
    ((qaPairs.zip qa_embeddings).map (fun p => (cosine_similarity query_emb p.2, p.1)))
  exact h.imp (by intro a b hab; simpa using hab)

theorem mem_scoredSorted (query_emb : List ℝ) (qaPairs : List QA)
    (qa_embeddings : List (List ℝ)) (p : ℝ × QA)
    (hp : p ∈ scoredSorted query_emb qaPairs qa_embeddings) :
    ∃ emb, (p.2, emb) ∈ qaPairs.zip qa_embeddings
      ∧ p.1 = cosine_similarity query_emb emb := by
  have hp2 : p ∈ (qaPairs.zip qa_embeddings).map
      (fun q => (cosine_similarity query_emb q.2, q.1)) :=
    (List.mergeSort_perm _ _).mem_iff.1 hp
  obtain ⟨⟨qa, emb⟩, hmem, hpe⟩ := List.mem_map.1 hp2
  subst hpe
  exact ⟨emb, hmem, rfl⟩

/-- C3: for every query embedding and every `k`, retrieval returns at most
`k` entries, each drawn from the loaded knowledge set; the scored list is
sorted by non-increasing cosine similarity to the query embedding, the
returned entries are exactly the items of its first `k` pairs, and every
scored pair carries the cosine similarity of its own embedding (tie order
unspecified: any stable order satisfies this statement). -/
theorem C3_thm (query_emb : List ℝ) (qaPairs : List QA)
    (qa_embeddings : List (List ℝ)) (k : Nat) :
    (retrieve_relevant_qa query_emb qaPairs qa_embeddings k).length ≤ k
    ∧ (∀ qa ∈ retrieve_relevant_qa query_emb qaPairs qa_embeddings k, qa ∈ qaPairs)
    ∧ (scoredSorted query_emb qaPairs qa_embeddings).Pairwise (fun p q => q.1 ≤ p.1)
    ∧ retrieve_relevant_qa query_emb qaPairs qa_embeddings k
        = ((scoredSorted query_emb qaPairs qa_embeddings).take k).map Prod.snd
    ∧ ∀ p ∈ scoredSorted query_emb qaPairs qa_embeddings,
        ∃ emb, (p.2, emb) ∈ qaPairs.zip qa_embeddings
          ∧ p.1 = cosine_similarity query_emb emb := by
  refine ⟨?_, ?_, scoredSorted_sorted _ _ _, rfl, mem_scoredSorted _ _ _⟩
  · unfold retrieve_relevant_qa
    rw [List.length_map, List.length_take]
    exact min_le_left _ _
  · intro qa hqa
    unfold retrieve_relevant_qa at hqa
    obtain ⟨p, hp, hpe⟩ := List.mem_map.1 hqa
    obtain ⟨emb, hmem, _⟩ := mem_scoredSorted _ _ _ p (List.mem_of_mem_take hp)
    rw [← hpe]
    exact (List.of_mem_zip hmem).1
